import Mathlib

/-!
# Verification of the triton client example programs

Shallow embedding of `src/c++/examples/simple_grpc_async_infer_client.cc` and
`src/c++/examples/simple_grpc_infer_client.cc`, together with a model of the
`AsyncRequestTracker` component that the design document specifies (the tracker
itself has no implementation in the repository; only its seed pattern — the
mutex/condition-variable coordination in the async example — is present).
-/

/-! ## The async example's counter/wait pattern

`simple_grpc_async_infer_client.cc` lines 417–462: the submission loop issues
`repeat_cnt` calls to `AsyncInfer`; every completion callback increments
`done_cnt` under the mutex; the main thread blocks on
`cv.wait(lk, [&]() { if (done_cnt >= repeat_cnt) return true; else return false; })`.
-/

/-- State shared between the async example's main thread and its completion
callbacks: the number of submitted requests (`repeat_cnt`, fixed by the
submission loop) and the number of callbacks that have run (`done_cnt`). -/
structure DemoState where
  repeat_cnt : Nat
  done_cnt : Nat
  deriving Repr, DecidableEq

/-- Initial shared state: nothing submitted, nothing done. -/
def demoInit : DemoState := ⟨0, 0⟩

/-- One observable event of the async example: an `AsyncInfer` submission
(one iteration of the loop at line 421) or the completion callback for
request `i` running (the `done_cnt++` at line 430). -/
inductive DemoEvent
  | submit
  | callbackDone (i : Nat)
  deriving Repr, DecidableEq

/-- Effect of one event on the shared counters, exactly as in the source:
a submission accounts for one more unit of `repeat_cnt`, a callback performs
`done_cnt++` regardless of which request it belongs to. -/
def demoStep (s : DemoState) : DemoEvent → DemoState
  | DemoEvent.submit => { s with repeat_cnt := s.repeat_cnt + 1 }
  | DemoEvent.callbackDone _ => { s with done_cnt := s.done_cnt + 1 }

/-- Run a sequence of events from a starting state. -/
def demoRun (s : DemoState) (es : List DemoEvent) : DemoState :=
  List.foldl demoStep s es

/-- The wait predicate from lines 448–454:
`if (done_cnt >= repeat_cnt) return true; else return false;`. -/
def waitPredicate (done_cnt repeat_cnt : Nat) : Bool :=
  if done_cnt ≥ repeat_cnt then true else false

/-- Semantics of `cv.wait(lk, pred)`: the call returns to the caller exactly
when the predicate evaluates to `true` (and returns immediately, without
blocking, when the predicate already holds at the call). -/
def cvWaitReturns (pred : Bool) : Bool := pred

theorem demoRun_append (s : DemoState) (es1 es2 : List DemoEvent) :
    demoRun s (es1 ++ es2) = demoRun (demoRun s es1) es2 := by
  simp [demoRun, List.foldl_append]

theorem demoRun_replicate_submit (s : DemoState) (n : Nat) :
    demoRun s (List.replicate n DemoEvent.submit) =
      { repeat_cnt := s.repeat_cnt + n, done_cnt := s.done_cnt } := by
  induction n generalizing s with
  | zero => simp [demoRun]
  | succ k ih =>
      rw [List.replicate_succ]
      show demoRun (demoStep s DemoEvent.submit) (List.replicate k DemoEvent.submit) = _
      rw [ih]
      simp [demoStep, Nat.add_comm, Nat.add_assoc, Nat.add_left_comm]

theorem demoRun_map_callbackDone (s : DemoState) (hs : List Nat) :
    demoRun s (hs.map DemoEvent.callbackDone) =
      { repeat_cnt := s.repeat_cnt, done_cnt := s.done_cnt + hs.length } := by
  induction hs generalizing s with
  | nil => simp [demoRun]
  | cons h t ih =>
      show demoRun (demoStep s (DemoEvent.callbackDone h)) (t.map DemoEvent.callbackDone) = _
      rw [ih]
      simp [demoStep, Nat.add_comm, Nat.add_assoc, Nat.add_left_comm]

/-- C1: the blocking wait never returns while `done_cnt < repeat_cnt` and
always returns once `done_cnt = repeat_cnt`; in particular, after `N`
submissions followed by the `N` completion callbacks running in any order
(`perm` lists the request indices in completion order), the shared counters
satisfy `done_cnt = repeat_cnt = N`, so a wait issued at that point returns
immediately without blocking. -/
theorem c1_wait_blocks_until_all_callbacks (N : Nat) (perm : List Nat)
    (hlen : perm.length = N) :
    (∀ d r : Nat, d < r → cvWaitReturns (waitPredicate d r) = false) ∧
    (∀ n : Nat, cvWaitReturns (waitPredicate n n) = true) ∧
    (demoRun demoInit
        (List.replicate N DemoEvent.submit ++ perm.map DemoEvent.callbackDone)).done_cnt = N ∧
    (demoRun demoInit
        (List.replicate N DemoEvent.submit ++ perm.map DemoEvent.callbackDone)).repeat_cnt = N ∧
    cvWaitReturns (waitPredicate
      (demoRun demoInit
        (List.replicate N DemoEvent.submit ++ perm.map DemoEvent.callbackDone)).done_cnt
      (demoRun demoInit
        (List.replicate N DemoEvent.submit ++ perm.map DemoEvent.callbackDone)).repeat_cnt) = true := by
  have hrun : demoRun demoInit
      (List.replicate N DemoEvent.submit ++ perm.map DemoEvent.callbackDone) =
      { repeat_cnt := N, done_cnt := N } := by
    rw [demoRun_append, demoRun_replicate_submit, demoRun_map_callbackDone]
    simp [demoInit, hlen]
  refine ⟨?_, ?_, ?_, ?_, ?_⟩
  · intro d r hdr
    simp [cvWaitReturns, waitPredicate, Nat.not_le.mpr hdr]
  · intro n
    simp [cvWaitReturns, waitPredicate]
  · rw [hrun]
  · rw [hrun]
  · rw [hrun]
    simp [cvWaitReturns, waitPredicate]

/-- Witness for C1 at `N = 2` with the two callbacks completing in reversed
order. -/
theorem c1_witness :
    cvWaitReturns (waitPredicate
      (demoRun demoInit
        (List.replicate 2 DemoEvent.submit ++ [1, 0].map DemoEvent.callbackDone)).done_cnt
      (demoRun demoInit
        (List.replicate 2 DemoEvent.submit ++ [1, 0].map DemoEvent.callbackDone)).repeat_cnt) = true :=
  (c1_wait_blocks_until_all_callbacks 2 [1, 0] (by decide)).2.2.2.2

/-! ## The AsyncRequestTracker model

The design document (spec §3–§7) specifies an `AsyncRequestTracker` component
generalizing the example's pattern; the repository contains no implementation
of it, only the example code that seeds it, so the tracker is modelled below
from the spec's words. -/

/-- Modelled from the spec: an `Outcome` is a tagged variant,
`Success(result)` or `Failure(error)` (spec §3). -/
inductive Outcome (R E : Type)
  | success (r : R)
  | failure (e : E)
  deriving Repr, DecidableEq

/-- Modelled from the spec: per-request state machine
`Submitted -> Completed`; no other states (spec §4.1). -/
inductive ReqState
  | submitted
  | completed
  deriving Repr, DecidableEq

/-- Modelled from the spec: the tracker's error taxonomy — `TrackerClosed`,
`DoubleCompletion`, `TimeoutError`, and the `UnknownHandle` case of §9
(spec §7). -/
inductive TrackerError
  | trackerClosed
  | doubleCompletion
  | timeoutError
  | unknownHandle
  deriving Repr, DecidableEq

/-- Modelled from the spec: `TrackerState` holds the count of submitted
requests, the count of completed requests, and a per-handle completion flag
(the per-handle one-shot guard); a handle is an index into `reqs` (spec §3,
§4.1). `closed` supports the `TrackerClosed` error of `submit`. -/
structure Tracker (R E : Type) where
  submitted_cnt : Nat
  completed_cnt : Nat
  reqs : List ReqState
  closed : Bool
  deriving Repr, DecidableEq

/-- Modelled from the spec: a fresh tracker with no requests. -/
def Tracker.empty (R E : Type) : Tracker R E :=
  { submitted_cnt := 0, completed_cnt := 0, reqs := [], closed := false }

/-- Modelled from the spec: `submit` registers one unit of outstanding work,
increments the submitted counter and returns a handle; it fails only if the
tracker has been shut down, with `TrackerClosed` (spec §4.1). -/
def Tracker.submit (t : Tracker R E) :
    Except TrackerError (Tracker R E × Nat) :=
  if t.closed then Except.error TrackerError.trackerClosed
  else Except.ok
    ({ t with
        submitted_cnt := t.submitted_cnt + 1,
        reqs := t.reqs ++ [ReqState.submitted] },
      t.reqs.length)

/-- Modelled from the spec: `complete` is invoked by the transport when a
response or error arrives; it increments the completed counter, dispatches
`onComplete(outcome)` (represented by returning the outcome delivered to the
callback, verbatim) and trips the per-handle one-shot guard. A second
completion of the same handle is detected by the guard and signalled as
`DoubleCompletion` without touching the counters; a handle that was never
submitted is `UnknownHandle` (spec §4.1, §7, §9). -/
def Tracker.complete (t : Tracker R E) (h : Nat) (o : Outcome R E) :
    Except TrackerError (Tracker R E × Outcome R E) :=
  match t.reqs[h]? with
  | none => Except.error TrackerError.unknownHandle
  | some ReqState.completed => Except.error TrackerError.doubleCompletion
  | some ReqState.submitted =>
      Except.ok
        ({ t with
            completed_cnt := t.completed_cnt + 1,
            reqs := t.reqs.set h ReqState.completed },
          o)

/-- Number of times handle `h`'s callback fires while the transport performs
the completion attempts in `attempts` (each a handle/outcome pair): a fire is
counted exactly when `Tracker.complete` succeeds for `h`; failed attempts
leave the tracker unchanged. -/
def firesFor (h : Nat) (t : Tracker R E) : List (Nat × Outcome R E) → Nat
  | [] => 0
  | (h2, o) :: rest =>
      match t.complete h2 o with
      | Except.ok (t2, _) => (if h2 = h then 1 else 0) + firesFor h t2 rest
      | Except.error _ => firesFor h t rest

/-- Tracker state after the transport performs the completion attempts in
`attempts`; attempts rejected with an error leave the state untouched. -/
def runCompletes (t : Tracker R E) : List (Nat × Outcome R E) → Tracker R E
  | [] => t
  | (h2, o) :: rest =>
      match t.complete h2 o with
      | Except.ok (t2, _) => runCompletes t2 rest
      | Except.error _ => runCompletes t rest

theorem complete_ok_inv (t : Tracker R E) (h2 : Nat) (o : Outcome R E)
    (t2 : Tracker R E) (out : Outcome R E)
    (hc : t.complete h2 o = Except.ok (t2, out)) :
    t.reqs[h2]? = some ReqState.submitted ∧
      t2 = { t with
              completed_cnt := t.completed_cnt + 1,
              reqs := t.reqs.set h2 ReqState.completed } ∧
      out = o := by
  unfold Tracker.complete at hc
  cases hget : t.reqs[h2]? with
  | none => rw [hget] at hc; exact absurd hc (by simp)
  | some st =>
      cases st with
      | completed => rw [hget] at hc; exact absurd hc (by simp)
      | submitted =>
          rw [hget] at hc
          simp only [Except.ok.injEq, Prod.mk.injEq] at hc
          exact ⟨rfl, hc.1.symm, hc.2.symm⟩

theorem complete_preserves_get_ne (t : Tracker R E) (h h2 : Nat) (o : Outcome R E)
    (t2 : Tracker R E) (out : Outcome R E) (hne : h2 ≠ h)
    (hc : t.complete h2 o = Except.ok (t2, out)) :
    t2.reqs[h]? = t.reqs[h]? := by
  obtain ⟨_, ht2, _⟩ := complete_ok_inv t h2 o t2 out hc
  rw [ht2]
  exact List.getElem?_set_ne hne

theorem complete_ok_get_self (t : Tracker R E) (h2 : Nat) (o : Outcome R E)
    (t2 : Tracker R E) (out : Outcome R E)
    (hc : t.complete h2 o = Except.ok (t2, out)) :
    t2.reqs[h2]? = some ReqState.completed := by
  obtain ⟨hget, ht2, _⟩ := complete_ok_inv t h2 o t2 out hc
  rw [ht2]
  exact List.getElem?_set_eq_of_lt _ (List.getElem?_eq_some.mp hget).1

theorem firesFor_of_completed (t : Tracker R E) (h : Nat)
    (hdone : t.reqs[h]? = some ReqState.completed) :
    ∀ attempts : List (Nat × Outcome R E), firesFor h t attempts = 0 := by
  intro attempts
  induction attempts generalizing t with
  | nil => rfl
  | cons a rest ih =>
      obtain ⟨h2, o⟩ := a
      show firesFor h t ((h2, o) :: rest) = 0
      unfold firesFor
      cases hc : t.complete h2 o with
      | error e => exact ih t hdone
      | ok p =>
          obtain ⟨t2, out⟩ := p
          by_cases heq : h2 = h
          · subst heq
            have := (complete_ok_inv t h2 o t2 out hc).1
            rw [hdone] at this
            exact absurd this (by simp)
          · have hpres := complete_preserves_get_ne t h h2 o t2 out heq hc
            show (if h2 = h then 1 else 0) + firesFor h t2 rest = 0
            rw [if_neg heq, Nat.zero_add]
            exact ih t2 (hpres.trans hdone)

theorem firesFor_le_one (t : Tracker R E) (h : Nat) :
    ∀ attempts : List (Nat × Outcome R E), firesFor h t attempts ≤ 1 := by
  intro attempts
  induction attempts generalizing t with
  | nil => exact Nat.zero_le 1
  | cons a rest ih =>
      obtain ⟨h2, o⟩ := a
      show firesFor h t ((h2, o) :: rest) ≤ 1
      unfold firesFor
      cases hc : t.complete h2 o with
      | error e => exact ih t
      | ok p =>
          obtain ⟨t2, out⟩ := p
          by_cases heq : h2 = h
          · subst heq
            have hdone := complete_ok_get_self t h2 o t2 out hc
            show (if h2 = h2 then 1 else 0) + firesFor h2 t2 rest ≤ 1
            rw [if_pos rfl, firesFor_of_completed t2 h2 hdone rest]
          · show (if h2 = h then 1 else 0) + firesFor h t2 rest ≤ 1
            rw [if_neg heq, Nat.zero_add]
            exact ih t2

theorem runCompletes_nil (t : Tracker R E) : runCompletes t [] = t := rfl

theorem runCompletes_cons (t : Tracker R E) (h2 : Nat) (o : Outcome R E)
    (rest : List (Nat × Outcome R E)) :
    runCompletes t ((h2, o) :: rest) =
      match t.complete h2 o with
      | Except.ok (t2, _) => runCompletes t2 rest
      | Except.error _ => runCompletes t rest := rfl

theorem firesFor_nil (h : Nat) (t : Tracker R E) : firesFor h t [] = 0 := rfl

theorem firesFor_cons (h : Nat) (t : Tracker R E) (h2 : Nat) (o : Outcome R E)
    (rest : List (Nat × Outcome R E)) :
    firesFor h t ((h2, o) :: rest) =
      match t.complete h2 o with
      | Except.ok (t2, _) => (if h2 = h then 1 else 0) + firesFor h t2 rest
      | Except.error _ => firesFor h t rest := rfl

/-- C2: each submitted handle's completion callback fires exactly once — the
first `complete` succeeds, dispatches the outcome and increments the completed
counter; a second `complete` for the same handle trips the per-handle one-shot
guard and is signalled as a `DoubleCompletion` error that leaves the counters
untouched (the state after both attempts is the state after the first), the
callback does not fire a second time, and on no attempt sequence does a
handle's callback fire more than once. -/
theorem c2_callback_exactly_once (R E : Type) (t : Tracker R E) (h : Nat)
    (o1 o2 : Outcome R E) (hsub : t.reqs[h]? = some ReqState.submitted) :
    ∃ t1 : Tracker R E,
      t.complete h o1 = Except.ok (t1, o1) ∧
      t1.complete h o2 = Except.error TrackerError.doubleCompletion ∧
      t1.completed_cnt = t.completed_cnt + 1 ∧
      t1.submitted_cnt = t.submitted_cnt ∧
      runCompletes t [(h, o1), (h, o2)] = t1 ∧
      firesFor h t [(h, o1), (h, o2)] = 1 ∧
      (∀ attempts : List (Nat × Outcome R E), firesFor h t attempts ≤ 1) := by
  have hc1 : t.complete h o1 =
      Except.ok
        ({ t with
            completed_cnt := t.completed_cnt + 1,
            reqs := t.reqs.set h ReqState.completed }, o1) := by
    unfold Tracker.complete
    rw [hsub]
  have hget1 : (t.reqs.set h ReqState.completed)[h]? = some ReqState.completed :=
    List.getElem?_set_eq_of_lt _ (List.getElem?_eq_some.mp hsub).1
  have hc2 : Tracker.complete
      { t with
          completed_cnt := t.completed_cnt + 1,
          reqs := t.reqs.set h ReqState.completed } h o2 =
      Except.error TrackerError.doubleCompletion := by
    unfold Tracker.complete
    rw [show ({ t with
          completed_cnt := t.completed_cnt + 1,
          reqs := t.reqs.set h ReqState.completed } : Tracker R E).reqs =
        t.reqs.set h ReqState.completed from rfl]
    rw [hget1]
  refine ⟨_, hc1, hc2, rfl, rfl, ?_, ?_, firesFor_le_one t h⟩
  · simp only [runCompletes_cons, hc1, hc2, runCompletes_nil]
  · simp only [firesFor_cons, hc1, hc2, firesFor_nil]
    simp

/-- Witness for C2: a one-request tracker, completed twice. -/
theorem c2_witness :
    ∃ t1 : Tracker Nat Nat,
      Tracker.complete ⟨1, 0, [ReqState.submitted], false⟩ 0 (Outcome.success 7) =
        Except.ok (t1, Outcome.success 7) ∧
      t1.complete 0 (Outcome.failure 3) = Except.error TrackerError.doubleCompletion ∧
      t1.completed_cnt = 0 + 1 ∧
      t1.submitted_cnt = 1 ∧
      runCompletes ⟨1, 0, [ReqState.submitted], false⟩
        [(0, Outcome.success 7), (0, Outcome.failure 3)] = t1 ∧
      firesFor 0 ⟨1, 0, [ReqState.submitted], false⟩
        [(0, Outcome.success 7), (0, Outcome.failure 3)] = 1 ∧
      (∀ attempts : List (Nat × Outcome Nat Nat),
        firesFor 0 ⟨1, 0, [ReqState.submitted], false⟩ attempts ≤ 1) :=
  c2_callback_exactly_once Nat Nat ⟨1, 0, [ReqState.submitted], false⟩ 0
    (Outcome.success 7) (Outcome.failure 3) (by decide)

/-- C4: on a failure outcome the tracker performs no retry and passes the
failure through untouched — `complete` with `Failure(e)` succeeds (the failure
is data, not a tracker error), the outcome handed to the registered callback is
exactly `Failure(e)`, the submitted counter is unchanged (no resubmission is
performed on the caller's behalf), and in general every outcome is dispatched
verbatim. -/
theorem c4_failure_passed_verbatim (R E : Type) (t : Tracker R E) (h : Nat)
    (e : E) (hsub : t.reqs[h]? = some ReqState.submitted) :
    (∃ t1 : Tracker R E,
      t.complete h (Outcome.failure e) = Except.ok (t1, Outcome.failure e) ∧
      t1.submitted_cnt = t.submitted_cnt ∧
      t1.completed_cnt = t.completed_cnt + 1) ∧
    (∀ (o : Outcome R E) (t2 : Tracker R E) (out : Outcome R E),
      t.complete h o = Except.ok (t2, out) → out = o ∧
        t2.submitted_cnt = t.submitted_cnt) := by
  constructor
  · refine ⟨{ t with
        completed_cnt := t.completed_cnt + 1,
        reqs := t.reqs.set h ReqState.completed }, ?_, rfl, rfl⟩
    unfold Tracker.complete
    rw [hsub]
  · intro o t2 out hc
    obtain ⟨_, ht2, hout⟩ := complete_ok_inv t h o t2 out hc
    exact ⟨hout, by rw [ht2]⟩

/-- Witness for C4: a failure outcome delivered on a one-request tracker. -/
theorem c4_witness :
    (∃ t1 : Tracker Nat Nat,
      Tracker.complete ⟨1, 0, [ReqState.submitted], false⟩ 0 (Outcome.failure 9) =
        Except.ok (t1, Outcome.failure 9) ∧
      t1.submitted_cnt = 1 ∧
      t1.completed_cnt = 0 + 1) ∧
    (∀ (o : Outcome Nat Nat) (t2 : Tracker Nat Nat) (out : Outcome Nat Nat),
      Tracker.complete ⟨1, 0, [ReqState.submitted], false⟩ 0 o = Except.ok (t2, out) →
        out = o ∧ t2.submitted_cnt = 1) :=
  c4_failure_passed_verbatim Nat Nat ⟨1, 0, [ReqState.submitted], false⟩ 0 9 (by decide)

/-- Modelled from the spec: `waitForAll(timeout?)` blocks until the completed
count reaches the snapshot of the submitted count taken when the call began,
re-sampling the completed counter as completions arrive; `completedAt u` is
the tracker's completed count at instant `u`, `start` the instant at which the
wait begins, and `fuel` the number of instants remaining until the deadline.
If the condition holds the wait returns; if the deadline elapses first it
returns `TimeoutError`. The wait never mutates the tracker (spec §4.1, §7). -/
def waitForAllRun (snapshot : Nat) (completedAt : Nat → Nat) :
    Nat → Nat → Except TrackerError Nat
  | start, 0 =>
      if snapshot ≤ completedAt start then Except.ok start
      else Except.error TrackerError.timeoutError
  | start, fuel + 1 =>
      if snapshot ≤ completedAt start then Except.ok start
      else waitForAllRun snapshot completedAt (start + 1) fuel

theorem waitForAllRun_of_sat (snapshot : Nat) (completedAt : Nat → Nat)
    (start fuel : Nat) (hsat : snapshot ≤ completedAt start) :
    waitForAllRun snapshot completedAt start fuel = Except.ok start := by
  cases fuel with
  | zero => simp [waitForAllRun, hsat]
  | succ k => simp [waitForAllRun, hsat]

theorem waitForAllRun_of_never (snapshot : Nat) (completedAt : Nat → Nat)
    (start fuel : Nat) (hnever : ∀ u, completedAt u < snapshot) :
    waitForAllRun snapshot completedAt start fuel =
      Except.error TrackerError.timeoutError := by
  induction fuel generalizing start with
  | zero => simp [waitForAllRun, Nat.not_le.mpr (hnever start)]
  | succ k ih =>
      simp only [waitForAllRun, Nat.not_le.mpr (hnever start), if_neg,
        Nat.not_le, if_false]
      exact ih (start + 1)

/-- C3: on a tracker with exactly one never-completed request, a wait with a
deadline returns a `TimeoutError` once the deadline elapses instead of
blocking forever, and the tracker (which the wait never mutates) remains
usable: a later `complete` of the outstanding request still succeeds, and a
subsequent wait against the same snapshot then succeeds immediately. -/
theorem c3_timeout_leaves_tracker_usable (R E : Type) (t : Tracker R E)
    (h : Nat) (o : Outcome R E) (completedAt : Nat → Nat) (start fuel : Nat)
    (hsub : t.reqs[h]? = some ReqState.submitted)
    (hone : t.submitted_cnt = t.completed_cnt + 1)
    (hnever : ∀ u, completedAt u = t.completed_cnt) :
    waitForAllRun t.submitted_cnt completedAt start fuel =
      Except.error TrackerError.timeoutError ∧
    ∃ t1 : Tracker R E,
      t.complete h o = Except.ok (t1, o) ∧
      t1.completed_cnt = t.completed_cnt + 1 ∧
      waitForAllRun t.submitted_cnt (fun _ => t1.completed_cnt) start fuel =
        Except.ok start := by
  have ht1 : t.complete h o =
      Except.ok
        ({ t with
            completed_cnt := t.completed_cnt + 1,
            reqs := t.reqs.set h ReqState.completed }, o) := by
    unfold Tracker.complete
    rw [hsub]
  refine ⟨?_, _, ht1, rfl, ?_⟩
  · refine waitForAllRun_of_never _ _ _ _ ?_
    intro u
    rw [hnever u, hone]
    exact Nat.lt_succ_self _
  · refine waitForAllRun_of_sat _ _ _ _ ?_
    show t.submitted_cnt ≤ t.completed_cnt + 1
    rw [hone]

/-- Witness for C3: a one-request tracker, a three-instant deadline, and a
completion-count history that never moves. -/
theorem c3_witness :
    waitForAllRun
        (Tracker.submitted_cnt
          (⟨1, 0, [ReqState.submitted], false⟩ : Tracker Nat Nat))
        (fun _ => 0) 0 3 = Except.error TrackerError.timeoutError ∧
    ∃ t1 : Tracker Nat Nat,
      Tracker.complete (⟨1, 0, [ReqState.submitted], false⟩ : Tracker Nat Nat)
          0 (Outcome.success 4) = Except.ok (t1, Outcome.success 4) ∧
      t1.completed_cnt = 0 + 1 ∧
      waitForAllRun
          (Tracker.submitted_cnt
            (⟨1, 0, [ReqState.submitted], false⟩ : Tracker Nat Nat))
          (fun _ => t1.completed_cnt) 0 3 = Except.ok 0 :=
  c3_timeout_leaves_tracker_usable Nat Nat ⟨1, 0, [ReqState.submitted], false⟩ 0
    (Outcome.success 4) (fun _ => 0) 0 3 (by decide) rfl (fun _ => rfl)

/-- An event visible to a pending wait: a new submission by some caller
thread, or a completion delivered by the transport. Attempts the tracker
rejects with an error leave the state unchanged. -/
inductive TEvent (R E : Type)
  | submitReq
  | completeReq (h : Nat) (o : Outcome R E)

/-- Effect of one event on the tracker state. -/
def applyEvent (t : Tracker R E) : TEvent R E → Tracker R E
  | TEvent.submitReq =>
      match t.submit with
      | Except.ok (t2, _) => t2
      | Except.error _ => t
  | TEvent.completeReq h o =>
      match t.complete h o with
      | Except.ok (t2, _) => t2
      | Except.error _ => t

/-- Tracker state after a sequence of events. -/
def runEvents (t : Tracker R E) (es : List (TEvent R E)) : Tracker R E :=
  List.foldl applyEvent t es

theorem applyEvent_submit_completed (t : Tracker R E) :
    (applyEvent t TEvent.submitReq).completed_cnt = t.completed_cnt := by
  unfold applyEvent Tracker.submit
  by_cases hc : t.closed <;> simp [hc]

theorem applyEvent_completed_mono (t : Tracker R E) (e : TEvent R E) :
    t.completed_cnt ≤ (applyEvent t e).completed_cnt := by
  cases e with
  | submitReq =>
      rw [applyEvent_submit_completed]
  | completeReq h o =>
      show t.completed_cnt ≤
        (match t.complete h o with
          | Except.ok (t2, _) => t2
          | Except.error _ => t).completed_cnt
      cases hc : t.complete h o with
      | error err => exact Nat.le_refl _
      | ok p =>
          obtain ⟨t2, out⟩ := p
          obtain ⟨_, ht2, _⟩ := complete_ok_inv t h o t2 out hc
          show t.completed_cnt ≤ t2.completed_cnt
          rw [ht2]
          exact Nat.le_succ _

theorem runEvents_completed_mono (t : Tracker R E) (es : List (TEvent R E)) :
    t.completed_cnt ≤ (runEvents t es).completed_cnt := by
  induction es generalizing t with
  | nil => exact Nat.le_refl _
  | cons e rest ih =>
      exact Nat.le_trans (applyEvent_completed_mono t e) (ih (applyEvent t e))

theorem runEvents_append (t : Tracker R E) (es1 es2 : List (TEvent R E)) :
    runEvents t (es1 ++ es2) = runEvents (runEvents t es1) es2 := by
  simp [runEvents, List.foldl_append]

/-- C7: the all-completions wait has snapshot semantics — its condition
compares the completed count against the submitted count captured when the
wait began (`t0.submitted_cnt`), a submission event never changes the
completed count and hence never changes any pending wait's condition, and
once the snapshot's completions have arrived, any further events (continuous
new submissions included) leave the condition satisfied, so an already
started wait is never extended by later submissions. -/
theorem c7_snapshot_semantics (R E : Type) (t0 : Tracker R E)
    (es more : List (TEvent R E))
    (hreached : waitPredicate (runEvents t0 es).completed_cnt
      t0.submitted_cnt = true) :
    waitPredicate (runEvents t0 (es ++ more)).completed_cnt
      t0.submitted_cnt = true ∧
    (∀ (t : Tracker R E) (k : Nat),
      waitPredicate (applyEvent t TEvent.submitReq).completed_cnt k =
        waitPredicate t.completed_cnt k) := by
  constructor
  · have hmono := runEvents_completed_mono (runEvents t0 es) more
    rw [runEvents_append]
    have hle : t0.submitted_cnt ≤ (runEvents t0 es).completed_cnt := by
      by_contra hlt
      rw [waitPredicate, if_neg hlt] at hreached
      exact absurd hreached (by simp)
    rw [waitPredicate, if_pos (Nat.le_trans hle hmono)]
  · intro t k
    rw [applyEvent_submit_completed]

/-- Witness for C7: an empty tracker whose (vacuous) snapshot is already
satisfied, followed by a burst of new submissions. -/
theorem c7_witness :
    waitPredicate
      (runEvents (Tracker.empty Nat Nat)
        ([] ++ [TEvent.submitReq, TEvent.submitReq])).completed_cnt
      (Tracker.empty Nat Nat).submitted_cnt = true ∧
    (∀ (t : Tracker Nat Nat) (k : Nat),
      waitPredicate (applyEvent t TEvent.submitReq).completed_cnt k =
        waitPredicate t.completed_cnt k) :=
  c7_snapshot_semantics Nat Nat (Tracker.empty Nat Nat) []
    [TEvent.submitReq, TEvent.submitReq] (by decide)

/-! ## The async example's deferred-result pattern

`simple_grpc_async_infer_client.cc` lines 464–498: a second `AsyncInfer` whose
callback, under the same mutex, sets `callback_invoked = true` and moves the
result into `result_placeholder`; the main thread blocks on
`cv.wait(lk, [&]() { return callback_invoked; })` and only then reads
`result_placeholder`. -/

/-- Shared state of the deferred-result pattern: the completion flag
`callback_invoked` and the single handoff slot `result_placeholder`, both
guarded by the same mutex `mtx`. -/
structure DeferState (R : Type) where
  callback_invoked : Bool
  result_placeholder : Option R
  deriving Repr, DecidableEq

/-- Initial state: `bool callback_invoked = false;` and an empty placeholder
(`std::shared_ptr<tc::InferResult> result_placeholder;`). -/
def deferInit (R : Type) : DeferState R := ⟨false, none⟩

/-- The deferring callback's critical section (lines 475–477), one atomic
action under `mtx`: `callback_invoked = true;` and
`result_placeholder = std::move(result_ptr);`. -/
def deferCallback (result : R) (s : DeferState R) : DeferState R :=
  { s with callback_invoked := true, result_placeholder := some result }

/-- State after the callback has run for each result in `rs`, in order. -/
def runDefer (s : DeferState R) (rs : List R) : DeferState R :=
  List.foldl (fun s2 r => deferCallback r s2) s rs

/-- The main thread's wait predicate from line 487:
`[&]() { return callback_invoked; }`. -/
def waitForOnePred (s : DeferState R) : Bool := s.callback_invoked

theorem runDefer_placeholder_isSome (s : DeferState R) (rs : List R)
    (hsome : s.result_placeholder.isSome = true) :
    (runDefer s rs).result_placeholder.isSome = true := by
  induction rs generalizing s with
  | nil => exact hsome
  | cons r rest ih =>
      show (runDefer (deferCallback r s) rest).result_placeholder.isSome = true
      exact ih _ rfl

theorem runDefer_invoked_iff_some (rs : List R) :
    (runDefer (deferInit R) rs).callback_invoked = true ↔
      (runDefer (deferInit R) rs).result_placeholder.isSome = true := by
  cases rs with
  | nil => simp [runDefer, deferInit]
  | cons r rest =>
      constructor
      · intro _
        exact runDefer_placeholder_isSome (deferCallback r (deferInit R)) rest rfl
      · intro _
        show (runDefer (deferCallback r (deferInit R)) rest).callback_invoked = true
        have hinv : ∀ (s : DeferState R) (l : List R),
            s.callback_invoked = true → (runDefer s l).callback_invoked = true := by
          intro s l
          induction l generalizing s with
          | nil => exact fun h => h
          | cons a b ih => exact fun _ => ih _ rfl
        exact hinv _ rest rfl

/-- C5: the single-handle wait blocks the main thread until that request's
callback has fired — `cv.wait` on `callback_invoked` returns exactly when the
flag is true and never while it is false — and whenever the wait has returned
the handoff slot is populated, so the main thread's subsequent read of
`result_placeholder` sees the handed-off result; the callback fills the flag
and the slot together in its one critical section under the mutex that also
guards the flag. -/
theorem c5_deferred_result_handoff (R : Type) (rs : List R)
    (hret : cvWaitReturns (waitForOnePred (runDefer (deferInit R) rs)) = true) :
    (∀ s : DeferState R, cvWaitReturns (waitForOnePred s) = s.callback_invoked) ∧
    (∀ (r : R) (s : DeferState R),
      deferCallback r s = ⟨true, some r⟩) ∧
    (runDefer (deferInit R) rs).result_placeholder.isSome = true := by
  refine ⟨fun s => rfl, fun r s => rfl, ?_⟩
  exact (runDefer_invoked_iff_some rs).mp hret

/-- Witness for C5: a single deferred completion carrying result `5`. -/
theorem c5_witness :
    (∀ s : DeferState Nat, cvWaitReturns (waitForOnePred s) = s.callback_invoked) ∧
    (∀ (r : Nat) (s : DeferState Nat),
      deferCallback r s = ⟨true, some r⟩) ∧
    (runDefer (deferInit Nat) [5]).result_placeholder.isSome = true :=
  c5_deferred_result_handoff Nat [5] (by decide)

/-! ## Lock discipline of the two completion callbacks

The callbacks at lines 424–440 and 470–480 of the async example: each opens a
scoped `std::lock_guard<std::mutex> lk(mtx)` block, mutates the shared state
inside it, and calls `cv.notify_all()` after the block has closed (after the
lock is released). -/

/-- One atomic action of a completion callback, in program order. -/
inductive CbAction
  | lockAcquire
  | printLine
  | incrDoneCnt
  | checkStatus
  | setCallbackInvoked
  | setResultPlaceholder
  | lockRelease
  | notifyAll
  deriving Repr, DecidableEq

/-- Action sequence of the first callback (lines 424–440): enter the
`lock_guard` block, print, `done_cnt++`, branch on `RequestStatus().IsOk()`,
leave the block (releasing `mtx`), then `cv.notify_all()`. -/
def firstCallbackActions : List CbAction :=
  [CbAction.lockAcquire, CbAction.printLine, CbAction.incrDoneCnt,
    CbAction.checkStatus, CbAction.lockRelease, CbAction.notifyAll]

/-- Action sequence of the deferring callback (lines 470–480): enter the
`lock_guard` block, `callback_invoked = true`,
`result_placeholder = std::move(result_ptr)`, leave the block, then
`cv.notify_all()`. -/
def deferCallbackActions : List CbAction :=
  [CbAction.lockAcquire, CbAction.setCallbackInvoked,
    CbAction.setResultPlaceholder, CbAction.lockRelease, CbAction.notifyAll]

/-- Which actions mutate the shared mutable completion state
(`done_cnt`, `callback_invoked`, `result_placeholder`). -/
def mutatesSharedState : CbAction → Bool
  | CbAction.incrDoneCnt => true
  | CbAction.setCallbackInvoked => true
  | CbAction.setResultPlaceholder => true
  | _ => false

/-- Annotate each action with whether the (single) mutex is held while it
executes: `lockAcquire` runs without the lock and acquires it,
`lockRelease` runs holding it and releases it. -/
def annotateHeld : Bool → List CbAction → List (CbAction × Bool)
  | _, [] => []
  | held, CbAction.lockAcquire :: rest =>
      (CbAction.lockAcquire, held) :: annotateHeld true rest
  | held, CbAction.lockRelease :: rest =>
      (CbAction.lockRelease, held) :: annotateHeld false rest
  | held, a :: rest => (a, held) :: annotateHeld held rest

/-- C6: in both completion callbacks, every mutation of the shared completion
state (`done_cnt`, `callback_invoked`, `result_placeholder`) executes while
the single mutex is held, the critical section is a single acquire/release
pair per callback, and the `cv.notify_all()` that wakes waiters executes
after the lock has been released. -/
theorem c6_mutations_locked_notify_unlocked :
    ((annotateHeld false firstCallbackActions).all
      (fun p => !mutatesSharedState p.1 || p.2)) = true ∧
    ((annotateHeld false deferCallbackActions).all
      (fun p => !mutatesSharedState p.1 || p.2)) = true ∧
    ((annotateHeld false firstCallbackActions).all
      (fun p => !(p.1 = CbAction.notifyAll) || !p.2)) = true ∧
    ((annotateHeld false deferCallbackActions).all
      (fun p => !(p.1 = CbAction.notifyAll) || !p.2)) = true ∧
    firstCallbackActions.count CbAction.lockAcquire = 1 ∧
    firstCallbackActions.count CbAction.lockRelease = 1 ∧
    deferCallbackActions.count CbAction.lockAcquire = 1 ∧
    deferCallbackActions.count CbAction.lockRelease = 1 := by
  decide

/-! ## Command-line option recognition

The sync client (line 129) parses with
`getopt_long(argc, argv, "vu:i:t:H:C:c:", long_options, NULL)`; the async
client (line 161) with `getopt(argc, argv, "vu:i:t:H:")`. In both programs the
`'?'` case — getopt's return for an unrecognized option — calls `Usage(argv)`,
which exits with status 1. -/

/-- The sync client's getopt option string. -/
def syncOptString : String := "vu:i:t:H:C:c:"

/-- The async client's getopt option string. -/
def asyncOptString : String := "vu:i:t:H:"

/-- getopt recognizes option character `c` iff `c` occurs in the option
string and is not the argument marker `':'`. -/
def getoptRecognizes (optstring : String) (c : Char) : Bool :=
  decide (c ≠ ':') && optstring.toList.contains c

/-- What a program's option switch does with option character `c`. -/
inductive OptHandling
  | handled
  | usageExit (code : Nat)
  deriving Repr, DecidableEq

/-- The sync client's switch: a recognized option is handled; an unrecognized
one surfaces as `'?'` and reaches `Usage`, which exits with status 1. -/
def syncHandleOpt (c : Char) : OptHandling :=
  if getoptRecognizes syncOptString c then OptHandling.handled
  else OptHandling.usageExit 1

/-- The async client's switch, likewise. -/
def asyncHandleOpt (c : Char) : OptHandling :=
  if getoptRecognizes asyncOptString c then OptHandling.handled
  else OptHandling.usageExit 1

/-- Counterexample to C8 as stated: the async example program does not accept
`-C` (nor `-c`); its getopt string lacks them, so `-C` takes the
usage-and-exit-1 path rather than being treated as transport configuration. -/
theorem c8_counterexample_async_rejects_C :
    getoptRecognizes asyncOptString 'C' = false ∧
    getoptRecognizes asyncOptString 'c' = false ∧
    asyncHandleOpt 'C' = OptHandling.usageExit 1 ∧
    asyncHandleOpt 'c' = OptHandling.usageExit 1 := by
  decide

/-- C8 (amended): the sync client's parsing accepts each of `-u`, `-t`, `-H`,
`-C`, `-c`; the async client accepts `-u`, `-t`, `-H` but not `-C` or `-c`;
and in both programs every option character getopt does not recognize leads
to the usage message and exit status 1. -/
theorem c8_amended_cli_flags (c : Char) :
    (getoptRecognizes syncOptString 'u' = true ∧
     getoptRecognizes syncOptString 't' = true ∧
     getoptRecognizes syncOptString 'H' = true ∧
     getoptRecognizes syncOptString 'C' = true ∧
     getoptRecognizes syncOptString 'c' = true) ∧
    (getoptRecognizes asyncOptString 'u' = true ∧
     getoptRecognizes asyncOptString 't' = true ∧
     getoptRecognizes asyncOptString 'H' = true) ∧
    (getoptRecognizes asyncOptString 'C' = false ∧
     getoptRecognizes asyncOptString 'c' = false) ∧
    (getoptRecognizes syncOptString c = false →
      syncHandleOpt c = OptHandling.usageExit 1) ∧
    (getoptRecognizes asyncOptString c = false →
      asyncHandleOpt c = OptHandling.usageExit 1) := by
  refine ⟨by decide, by decide, by decide, ?_, ?_⟩
  · intro h
    simp [syncHandleOpt, h]
  · intro h
    simp [asyncHandleOpt, h]

/-- Witness for C8 (amended) at the unrecognized option character `x`. -/
theorem c8_witness :
    getoptRecognizes syncOptString 'x' = false ∧
    syncHandleOpt 'x' = OptHandling.usageExit 1 ∧
    asyncHandleOpt 'x' = OptHandling.usageExit 1 :=
  ⟨by decide, (c8_amended_cli_flags 'x').2.2.2.1 (by decide),
    (c8_amended_cli_flags 'x').2.2.2.2 (by decide)⟩

/-! ## The sync client's result validation

`simple_grpc_infer_client.cc`: `ValidateShapeAndDatatype` (lines 48–71) exits
with status 1 unless the named output has shape `[1,16]` and datatype
`"INT32"`; `main` (lines 308–375) then exits 1 unless each output's raw byte
size is 64, and unless for every `i` in `0..15` the outputs are the
element-wise sum and difference of the inputs; only then does it print
`"PASS : Infer"`. -/

/-- The data of one requested output as seen by the validation code: the
shape and datatype reported by the result, the raw byte size, and the raw
data viewed as 32-bit integers. -/
structure OutputTensor where
  shape : List Int
  datatype : String
  byte_size : Nat
  data : List Int
  deriving Repr, DecidableEq

/-- How the validation code leaves the process: reaching the success print,
or `exit(code)`. -/
inductive ProgExit
  | pass
  | exitFailure (code : Nat)
  deriving Repr, DecidableEq

/-- Lines 52–70: `ValidateShapeAndDatatype` as a predicate — `false` means
the function called `exit(1)`. The shape check is
`(shape.size() != 2) || (shape[0] != 1) || (shape[1] != 16)` and the datatype
check is `datatype.compare("INT32") != 0`. -/
def validateShapeAndDatatype (o : OutputTensor) : Bool :=
  if o.shape.length ≠ 2 ∨ o.shape.getD 0 0 ≠ 1 ∨ o.shape.getD 1 0 ≠ 16 then
    false
  else if o.datatype ≠ "INT32" then false
  else true

/-- Lines 337–351: the validation loop `for (size_t i = 0; i < 16; ++i)`,
exiting with status 1 at the first incorrect sum or difference; `i` is the
current index and the second argument the number of iterations remaining. -/
def checkSumDiffLoop (in0 in1 o0 o1 : List Int) : Nat → Nat → ProgExit
  | _, 0 => ProgExit.pass
  | i, n + 1 =>
      if in0.getD i 0 + in1.getD i 0 ≠ o0.getD i 0 then ProgExit.exitFailure 1
      else if in0.getD i 0 - in1.getD i 0 ≠ o1.getD i 0 then
        ProgExit.exitFailure 1
      else checkSumDiffLoop in0 in1 o0 o1 (i + 1) n

/-- Lines 308–351 of `main`: validate both outputs' shape and datatype
(exit 1 on failure), check both raw byte sizes against 64 (exit 1 on
mismatch), then run the sum/difference loop; `ProgExit.pass` means control
reaches the `"PASS : Infer"` print. -/
def syncValidateMain (out0 out1 : OutputTensor) (in0 in1 : List Int) : ProgExit :=
  if validateShapeAndDatatype out0 = false then ProgExit.exitFailure 1
  else if validateShapeAndDatatype out1 = false then ProgExit.exitFailure 1
  else if out0.byte_size ≠ 64 then ProgExit.exitFailure 1
  else if out1.byte_size ≠ 64 then ProgExit.exitFailure 1
  else checkSumDiffLoop in0 in1 out0.data out1.data 0 16

theorem validateShapeAndDatatype_iff (o : OutputTensor) :
    validateShapeAndDatatype o = true ↔
      (o.shape = [1, 16] ∧ o.datatype = "INT32") := by
  unfold validateShapeAndDatatype
  constructor
  · intro hpass
    by_cases h1 : o.shape.length ≠ 2 ∨ o.shape.getD 0 0 ≠ 1 ∨ o.shape.getD 1 0 ≠ 16
    · rw [if_pos h1] at hpass
      exact absurd hpass (by simp)
    · rw [if_neg h1] at hpass
      by_cases h2 : o.datatype ≠ "INT32"
      · rw [if_pos h2] at hpass
        exact absurd hpass (by simp)
      · push_neg at h1 h2
        obtain ⟨hlen, h0, h16⟩ := h1
        obtain ⟨a, b, hab⟩ := List.length_eq_two.mp hlen
        rw [hab] at h0 h16
        simp only [List.getD_cons_zero, List.getD_cons_succ] at h0 h16
        exact ⟨by rw [hab, h0, h16], h2⟩
  · rintro ⟨hs, hd⟩
    rw [hs, hd]
    norm_num [List.getD]

theorem checkSumDiffLoop_pass_iff (in0 in1 o0 o1 : List Int) :
    ∀ (n i : Nat), checkSumDiffLoop in0 in1 o0 o1 i n = ProgExit.pass ↔
      (∀ j : Nat, j < n →
        o0.getD (i + j) 0 = in0.getD (i + j) 0 + in1.getD (i + j) 0 ∧
        o1.getD (i + j) 0 = in0.getD (i + j) 0 - in1.getD (i + j) 0) := by
  intro n
  induction n with
  | zero =>
      intro i
      simp [checkSumDiffLoop]
  | succ m ih =>
      intro i
      constructor
      · intro hpass
        by_cases h1 : in0.getD i 0 + in1.getD i 0 ≠ o0.getD i 0
        · rw [checkSumDiffLoop, if_pos h1] at hpass
          exact absurd hpass (by simp)
        · by_cases h2 : in0.getD i 0 - in1.getD i 0 ≠ o1.getD i 0
          · rw [checkSumDiffLoop, if_neg h1, if_pos h2] at hpass
            exact absurd hpass (by simp)
          · rw [checkSumDiffLoop, if_neg h1, if_neg h2] at hpass
            intro j hj
            cases j with
            | zero =>
                rw [Nat.add_zero]
                exact ⟨(not_not.mp h1).symm, (not_not.mp h2).symm⟩
            | succ k =>
                have hk : k < m := Nat.lt_of_succ_lt_succ hj
                have heq : i + (k + 1) = (i + 1) + k := by omega
                rw [heq]
                exact (ih (i + 1)).mp hpass k hk
      · intro hall
        have h0 := hall 0 (Nat.succ_pos m)
        rw [Nat.add_zero] at h0
        rw [checkSumDiffLoop, if_neg (not_not.mpr h0.1.symm),
          if_neg (not_not.mpr h0.2.symm)]
        refine (ih (i + 1)).mpr ?_
        intro k hk
        have heq : (i + 1) + k = i + (k + 1) := by omega
        rw [heq]
        exact hall (k + 1) (Nat.succ_lt_succ hk)

theorem checkSumDiffLoop_pass_or (in0 in1 o0 o1 : List Int) :
    ∀ (n i : Nat), checkSumDiffLoop in0 in1 o0 o1 i n = ProgExit.pass ∨
      checkSumDiffLoop in0 in1 o0 o1 i n = ProgExit.exitFailure 1 := by
  intro n
  induction n with
  | zero => intro i; left; rfl
  | succ m ih =>
      intro i
      by_cases h1 : in0.getD i 0 + in1.getD i 0 ≠ o0.getD i 0
      · right; rw [checkSumDiffLoop, if_pos h1]
      · by_cases h2 : in0.getD i 0 - in1.getD i 0 ≠ o1.getD i 0
        · right; rw [checkSumDiffLoop, if_neg h1, if_pos h2]
        · rw [checkSumDiffLoop, if_neg h1, if_neg h2]
          exact ih (i + 1)

/-- C9: the sync client reaches the `"PASS : Infer"` print exactly when both
outputs have shape `[1,16]` and datatype `"INT32"`, both raw byte sizes are
64, and for every index `i` in `0..15` output0 is the element-wise sum and
output1 the element-wise difference of the inputs; in every other case it
exits with status 1. -/
theorem c9_sync_validation (out0 out1 : OutputTensor) (in0 in1 : List Int) :
    (syncValidateMain out0 out1 in0 in1 = ProgExit.pass ↔
      (out0.shape = [1, 16] ∧ out0.datatype = "INT32" ∧
       out1.shape = [1, 16] ∧ out1.datatype = "INT32" ∧
       out0.byte_size = 64 ∧ out1.byte_size = 64 ∧
       (∀ i : Nat, i < 16 →
         out0.data.getD i 0 = in0.getD i 0 + in1.getD i 0 ∧
         out1.data.getD i 0 = in0.getD i 0 - in1.getD i 0))) ∧
    (syncValidateMain out0 out1 in0 in1 = ProgExit.pass ∨
     syncValidateMain out0 out1 in0 in1 = ProgExit.exitFailure 1) := by
  have hloop := checkSumDiffLoop_pass_iff in0 in1 out0.data out1.data 16 0
  constructor
  · unfold syncValidateMain
    by_cases v0 : validateShapeAndDatatype out0 = false
    · rw [if_pos v0]
      constructor
      · intro hc; exact absurd hc (by simp)
      · rintro ⟨hs0, hd0, _⟩
        have : validateShapeAndDatatype out0 = true :=
          (validateShapeAndDatatype_iff out0).mpr ⟨hs0, hd0⟩
        rw [this] at v0
        exact absurd v0 (by simp)
    · rw [if_neg v0]
      have hv0 : out0.shape = [1, 16] ∧ out0.datatype = "INT32" :=
        (validateShapeAndDatatype_iff out0).mp (Bool.eq_true_of_not_eq_false v0)
      by_cases v1 : validateShapeAndDatatype out1 = false
      · rw [if_pos v1]
        constructor
        · intro hc; exact absurd hc (by simp)
        · rintro ⟨_, _, hs1, hd1, _⟩
          have : validateShapeAndDatatype out1 = true :=
            (validateShapeAndDatatype_iff out1).mpr ⟨hs1, hd1⟩
          rw [this] at v1
          exact absurd v1 (by simp)
      · rw [if_neg v1]
        have hv1 : out1.shape = [1, 16] ∧ out1.datatype = "INT32" :=
          (validateShapeAndDatatype_iff out1).mp (Bool.eq_true_of_not_eq_false v1)
        by_cases b0 : out0.byte_size ≠ 64
        · rw [if_pos b0]
          constructor
          · intro hc; exact absurd hc (by simp)
          · rintro ⟨_, _, _, _, hb0, _⟩
            exact absurd hb0 b0
        · rw [if_neg b0]
          by_cases b1 : out1.byte_size ≠ 64
          · rw [if_pos b1]
            constructor
            · intro hc; exact absurd hc (by simp)
            · rintro ⟨_, _, _, _, _, hb1, _⟩
              exact absurd hb1 b1
          · rw [if_neg b1]
            constructor
            · intro hpass
              refine ⟨hv0.1, hv0.2, hv1.1, hv1.2, not_not.mp b0, not_not.mp b1, ?_⟩
              intro i hi
              have := hloop.mp hpass i hi
              rw [Nat.zero_add] at this
              exact this
            · rintro ⟨_, _, _, _, _, _, hall⟩
              refine hloop.mpr ?_
              intro j hj
              rw [Nat.zero_add]
              exact hall j hj
  · unfold syncValidateMain
    by_cases v0 : validateShapeAndDatatype out0 = false
    · right; rw [if_pos v0]
    · rw [if_neg v0]
      by_cases v1 : validateShapeAndDatatype out1 = false
      · right; rw [if_pos v1]
      · rw [if_neg v1]
        by_cases b0 : out0.byte_size ≠ 64
        · right; rw [if_pos b0]
        · rw [if_neg b0]
          by_cases b1 : out1.byte_size ≠ 64
          · right; rw [if_pos b1]
          · rw [if_neg b1]
            exact checkSumDiffLoop_pass_or in0 in1 out0.data out1.data 16 0

/-! ## The -H header parsing of the two clients

Async client lines 175–180:
`std::string header = arg.substr(0, arg.find(":"));`
`http_headers[header] = arg.substr(header.size() + 1);` — with no guard.
Sync client lines 156–168: the same two steps, but guarded by
`if (header.size() == arg.size() || header.empty()) Usage(...)`.
`std::string::substr(pos)` throws `std::out_of_range` when `pos > size()`;
`find` returns `npos` when absent and `substr(0, npos)` is the whole string. -/

/-- Result of `std::string::substr(pos)`: the suffix from `pos`, or the
`std::out_of_range` exception when `pos > size()`. -/
inductive SubstrOutcome
  | ok (s : List Char)
  | outOfRange
  deriving Repr, DecidableEq

/-- `s.substr(pos)` for a string modelled as its character list. -/
def cppSubstrFrom (s : List Char) (pos : Nat) : SubstrOutcome :=
  if s.length < pos then SubstrOutcome.outOfRange
  else SubstrOutcome.ok (s.drop pos)

/-- `arg.find(":")`: the index of the first `':'`, or none for `npos`. -/
def findColon : List Char → Option Nat
  | [] => none
  | c :: rest =>
      if c = ':' then some 0
      else Option.map (fun i => i + 1) (findColon rest)

/-- `arg.substr(0, arg.find(":"))`: up to the first `':'`, or the whole
string when `find` returned `npos` (since `substr(0, npos)` clamps). -/
def headerPrefix (arg : List Char) : List Char :=
  match findColon arg with
  | some i => arg.take i
  | none => arg

/-- How the `-H` case of an option switch ends: a parsed header/value pair
stored into `http_headers`, the `Usage` path exiting with status 1, or an
uncaught `std::out_of_range` escaping from `substr`. -/
inductive HeaderParseOutcome
  | parsed (header value : List Char)
  | usageExit (code : Nat)
  | substrOutOfRange
  deriving Repr, DecidableEq

/-- The async client's `-H` case (lines 175–180): compute the prefix before
the first `':'`, then take `arg.substr(header.size() + 1)` with no guard. -/
def asyncParseHeader (arg : List Char) : HeaderParseOutcome :=
  match cppSubstrFrom arg ((headerPrefix arg).length + 1) with
  | SubstrOutcome.ok v => HeaderParseOutcome.parsed (headerPrefix arg) v
  | SubstrOutcome.outOfRange => HeaderParseOutcome.substrOutOfRange

/-- The sync client's `-H` case (lines 156–168): same computation, but
guarded — `if (header.size() == arg.size() || header.empty())` calls
`Usage`, which exits with status 1. -/
def syncParseHeader (arg : List Char) : HeaderParseOutcome :=
  if (headerPrefix arg).length = arg.length ∨ (headerPrefix arg).length = 0 then
    HeaderParseOutcome.usageExit 1
  else
    match cppSubstrFrom arg ((headerPrefix arg).length + 1) with
    | SubstrOutcome.ok v => HeaderParseOutcome.parsed (headerPrefix arg) v
    | SubstrOutcome.outOfRange => HeaderParseOutcome.substrOutOfRange

theorem findColon_eq_none (arg : List Char) (h : ':' ∉ arg) :
    findColon arg = none := by
  induction arg with
  | nil => rfl
  | cons c rest ih =>
      show (if c = ':' then some 0
        else Option.map (fun i => i + 1) (findColon rest)) = none
      rw [if_neg (fun hc => h (List.mem_cons.mpr (Or.inl hc.symm)))]
      rw [ih (fun hm => h (List.mem_cons_of_mem c hm))]
      rfl

theorem headerPrefix_no_colon (arg : List Char) (h : ':' ∉ arg) :
    headerPrefix arg = arg := by
  unfold headerPrefix
  rw [findColon_eq_none arg h]

/-- C10: for a `-H` argument containing no `':'`, the prefix before the first
`':'` is the whole argument, so the async client's unguarded
`arg.substr(header.size() + 1)` is called with a position one past the
string's length and raises `std::out_of_range`, while the sync client's
guard (`header.size() == arg.size()`) sends it down the `Usage` path, which
exits with status 1 — the two programs disagree on this input class. -/
theorem c10_header_without_colon (arg : List Char) (h : ':' ∉ arg) :
    asyncParseHeader arg = HeaderParseOutcome.substrOutOfRange ∧
    syncParseHeader arg = HeaderParseOutcome.usageExit 1 := by
  have hp := headerPrefix_no_colon arg h
  have hsub : cppSubstrFrom arg ((headerPrefix arg).length + 1) =
      SubstrOutcome.outOfRange := by
    rw [hp]
    unfold cppSubstrFrom
    rw [if_pos (Nat.lt_succ_self _)]
  constructor
  · unfold asyncParseHeader
    rw [hsub]
  · unfold syncParseHeader
    rw [hp]
    rw [if_pos (Or.inl rfl)]

/-- Witness for C10 at the colon-free argument `abc`. -/
theorem c10_witness :
    asyncParseHeader ['a', 'b', 'c'] = HeaderParseOutcome.substrOutOfRange ∧
    syncParseHeader ['a', 'b', 'c'] = HeaderParseOutcome.usageExit 1 :=
  c10_header_without_colon ['a', 'b', 'c'] (by decide)
